import Mathlib

/-!
Shallow embedding of the device session manager of niimblue-node
(`NiimbotHeadlessSerialClient` in the serial client source file).

The client owns one serial `SerialPort` handle at a time, keeps an
`isOpen` boolean, sends raw packets either directly (`force`) or through
the mutex of the abstract client, and drains the port buffer in
`dataReady`.  External collaborators (the niimbluelib abstract client's
mutex, `initialNegotiate`, `fetchPrinterInfo`, `processRawPacket`,
`stopHeartbeat`) are modelled as explicit parameters or trace events.
-/

set_option autoImplicit false

namespace NiimblueNode

/-- A raw byte sequence (`Uint8Array` / `Buffer`), bytes as naturals. -/
abbrev Chunk : Type := List Nat

/-- Modelled from the spec: the `ConnectResult` enum of niimbluelib (not part
of this repository's sources); only the `FirmwareErrors` member is referred to
by the client, the rest is abstracted as an opaque code. -/
inductive ConnectResult where
  | firmwareErrors : ConnectResult
  | code : Nat → ConnectResult
deriving DecidableEq, Repr

/-- The `ConnectionInfo` record returned by `connect` and carried by the
connect event: `deviceName` and negotiation `result`. -/
structure ConnectionInfo where
  deviceName : String
  result : ConnectResult
deriving DecidableEq, Repr

/-- Lifecycle events emitted by the client (`emit(...)` calls). -/
inductive Ev where
  | connectEv : ConnectionInfo → Ev
  | disconnectEv : Ev
  | rawPacketSent : Chunk → Ev
deriving DecidableEq, Repr

/-- Transport-level operations performed by the client, in order:
`Utils.sleep(packetIntervalMs)` and `device.write(...)`. -/
inductive Action where
  | sleep : Nat → Action
  | write : Chunk → Action
deriving DecidableEq, Repr

/-- Errors thrown by the client.  `external n` stands for an arbitrary
error thrown by a collaborator (`serialport` open, `initialNegotiate`,
`fetchPrinterInfo`) and rethrown by the client unchanged. -/
inductive CErr where
  | portNotSet : CErr
  | notConnected : CErr
  | external : Nat → CErr
deriving DecidableEq, Repr

/-- The printer info of the abstract client, restricted to the one field the
serial client reads: `info.connectResult`. -/
structure PrinterInfo where
  connectResult : Option ConnectResult
deriving DecidableEq, Repr

/-- State of `NiimbotHeadlessSerialClient`.

`handles` records every `SerialPort` object ever created by
`serialOpenAsync`, in creation order, each entry being its open flag;
`device` is the index of the current `this.device` (if any).  `isOpen`
is the `this.isOpen` field, `heartbeat` the running-heartbeat flag of the
abstract client, `packetIntervalMs` its configured inter-packet delay.
`events` is the trace of emitted lifecycle events and `actions` the trace
of transport operations (sleeps and writes). -/
structure ClientState where
  portName : Option String
  handles : List Bool
  device : Option Nat
  isOpen : Bool
  heartbeat : Bool
  packetIntervalMs : Nat
  info : PrinterInfo
  events : List Ev
  actions : List Action
deriving DecidableEq, Repr

/-- The transport writes extracted from the action trace. -/
def writesOf (s : ClientState) : List Chunk :=
  s.actions.filterMap (fun a => match a with
    | .write d => some d
    | .sleep _ => none)

/-- `isConnected()`: returns the `isOpen` flag. -/
def isConnected (s : ClientState) : Bool :=
  s.isOpen

/-- `setPort(portName)`. -/
def setPort (s : ClientState) (portName : String) : ClientState :=
  { s with portName := some portName }

/-- Whether the current `this.device` handle exists and is open. -/
def deviceOpen (s : ClientState) : Bool :=
  match s.device with
  | none => false
  | some i => s.handles.getD i false

/-- Number of live (open) serial-port handles. -/
def liveHandles (s : ClientState) : Nat :=
  s.handles.count true

/-- Effect of `this.device?.close()`: if the current handle is open it is
closed and the port emits its close notification exactly once, running the
listener installed by `connect` (`isOpen = false`, emit disconnect event).
Closing an already-closed or absent handle does nothing and fires no
notification. -/
def closeDevice (s : ClientState) : ClientState :=
  match s.device with
  | none => s
  | some i =>
    if s.handles.getD i false then
      { s with handles := s.handles.set i false
               isOpen := false
               events := s.events ++ [.disconnectEv] }
    else s

/-- `disconnect()`: `stopHeartbeat()` (abstract client, clears the heartbeat
timer), then `this.device?.close()`. -/
def disconnect (s : ClientState) : ClientState :=
  closeDevice { s with heartbeat := false }

/-- One outcome of a `this.device.read()` call inside the drain loop:
a chunk (`Buffer`), `null`, or a thrown error. -/
inductive ReadOutcome where
  | chunk : Chunk → ReadOutcome
  | nullRead : ReadOutcome
  | err : ReadOutcome
deriving DecidableEq, Repr

/-- The chunks forwarded to `processRawPacket` by one `dataReady()` drain
cycle, given the sequence of outcomes the port's `read()` produces: loop
forwarding each non-null chunk, `break` on `null`, `break` (silently) on a
thrown error. -/
def drainChunks : List ReadOutcome → List Chunk
  | [] => []
  | .chunk c :: rest => c :: drainChunks rest
  | .nullRead :: _ => []
  | .err :: _ => []

/-- `dataReady()`: drains the buffered outcomes, returning the unchanged
client state (the method touches no client field) and the chunks forwarded,
in order, to the external decoder. -/
def dataReady (s : ClientState) (outs : List ReadOutcome) :
    ClientState × List Chunk :=
  (s, drainChunks outs)

/-- An outcome on which the drain loop keeps going: a non-null chunk. -/
def isChunk : ReadOutcome → Bool
  | .chunk _ => true
  | _ => false

/-- The payload of a chunk outcome (empty for the others). -/
def chunkOf : ReadOutcome → Chunk
  | .chunk c => c
  | _ => []

theorem drainChunks_eq_takeWhile (outs : List ReadOutcome) :
    drainChunks outs = (outs.takeWhile isChunk).map chunkOf := by
  induction outs with
  | nil => rfl
  | cons o rest ih =>
    cases o with
    | chunk c => simp [drainChunks, List.takeWhile, isChunk, chunkOf, ih]
    | nullRead => simp [drainChunks, List.takeWhile, isChunk]
    | err => simp [drainChunks, List.takeWhile, isChunk]

/-! ### List helper lemmas for handle bookkeeping -/

theorem getD_set_self_false :
    ∀ (l : List Bool) (i : Nat), (l.set i false).getD i false = false
  | [], _ => by simp [List.getD]
  | _ :: _, 0 => by simp [List.set, List.getD]
  | a :: tl, i + 1 => by
      simpa [List.set, List.getD] using getD_set_self_false tl i

theorem count_true_set_false :
    ∀ (l : List Bool) (i : Nat), l.getD i false = true →
      (l.set i false).count true + 1 = l.count true
  | [], i, h => by simp [List.getD] at h
  | a :: tl, 0, h => by
      simp [List.getD] at h
      subst h
      simp [List.set, List.count_cons]
  | a :: tl, i + 1, h => by
      have ih := count_true_set_false tl i (by simpa [List.getD] using h)
      simp only [List.set, List.count_cons]
      omega

theorem count_true_pos :
    ∀ (l : List Bool) (i : Nat), l.getD i false = true → 0 < l.count true
  | [], i, h => by simp [List.getD] at h
  | a :: tl, 0, h => by
      simp [List.getD] at h
      subst h
      simp [List.count_cons]
  | a :: tl, i + 1, h => by
      have ih := count_true_pos tl i (by simpa [List.getD] using h)
      simp only [List.count_cons]
      omega

theorem count_true_zero_getD :
    ∀ (l : List Bool), l.count true = 0 → ∀ (i : Nat), l.getD i false = false
  | [], _, i => by simp [List.getD]
  | a :: tl, h, i => by
      cases a with
      | true =>
        simp [List.count_cons] at h
      | false =>
        have htl : tl.count true = 0 := by
          simpa [List.count_cons] using h
        cases i with
        | zero => simp [List.getD]
        | succ i => simpa [List.getD] using count_true_zero_getD tl htl i

theorem set_append_length (l : List Bool) (a b : Bool) :
    (l ++ [a]).set l.length b = l ++ [b] := by
  induction l with
  | nil => rfl
  | cons x tl ih => simp [List.set, ih]

theorem getD_append_length (l : List Bool) (a : Bool) (d : Bool) :
    (l ++ [a]).getD l.length d = a := by
  rw [List.getD_append_right l [a] d l.length (Nat.le_refl _)]
  simp [List.getD]

/-! ### The send path -/

/-- The `send` closure inside `sendRaw`: throw `"Not connected"` when
`isConnected()` is false; otherwise `await Utils.sleep(packetIntervalMs)`,
`device.write(Buffer.from(data))`, then emit the `rawpacketsent` event. -/
def sendBody (s : ClientState) (data : Chunk) : ClientState × Except CErr Unit :=
  if isConnected s then
    ({ s with actions := s.actions ++ [.sleep s.packetIntervalMs, .write data]
              events := s.events ++ [.rawPacketSent data] }, .ok ())
  else (s, .error .notConnected)

/-- Modelled from the spec: the abstract client's mutex
(niimbluelib / async-mutex `runExclusive`, not part of this repository's
sources) is a first-come-first-served queue of pending exclusive tasks;
each gated `sendRaw` call appends its `send` closure, and the queued
closures run one at a time in queue order. -/
structure Gate where
  queue : List Chunk
deriving DecidableEq, Repr

/-- A gated `sendRaw` call handing its task to `mutex.runExclusive`:
the task joins the tail of the queue unconditionally (the connectivity
check lives inside the task, which has not run yet). -/
def gateEnqueue (g : Gate) (d : Chunk) : Gate :=
  ⟨g.queue ++ [d]⟩

/-- Observable trace of one gated `sendRaw` call on an otherwise idle gate:
the gate state right after the call enqueues its task, and the outcome once
the task runs (acquire, run `send`, release). -/
structure GatedSendTrace where
  queuedGate : Gate
  final : ClientState × Except CErr Unit

/-- `sendRaw(data)` with `force` unset: `mutex.runExclusive(send)`.
The task is enqueued first; when it reaches the head of the queue it runs
`sendBody`. -/
def gatedSend (s : ClientState) (g : Gate) (d : Chunk) : GatedSendTrace :=
  { queuedGate := gateEnqueue g d, final := sendBody s d }

/-- `sendRaw(data, true)`: the `force` path runs the `send` closure directly,
without touching the mutex. -/
def sendRawForce (s : ClientState) (data : Chunk) : ClientState × Except CErr Unit :=
  sendBody s data

/-- Running a whole FIFO queue of pending gated sends to completion, one
exclusive task at a time, in queue order; returns the final state and the
outcome of each task in order. -/
def gateRunAll (s : ClientState) : List Chunk → ClientState × List (Except CErr Unit)
  | [] => (s, [])
  | d :: rest =>
    let r := sendBody s d
    let rs := gateRunAll r.1 rest
    (rs.1, r.2 :: rs.2)

theorem sendBody_fields (s : ClientState) (d : Chunk) :
    (sendBody s d).1.isOpen = s.isOpen ∧
    (sendBody s d).1.packetIntervalMs = s.packetIntervalMs := by
  unfold sendBody
  split <;> simp

theorem sendBody_connected (s : ClientState) (d : Chunk) (h : isConnected s = true) :
    (sendBody s d).1 =
      { s with actions := s.actions ++ [.sleep s.packetIntervalMs, .write d]
               events := s.events ++ [.rawPacketSent d] } ∧
    (sendBody s d).2 = .ok () := by
  unfold sendBody
  rw [h]
  simp

theorem writesOf_append_send (s : ClientState) (d : Chunk) (h : isConnected s = true) :
    writesOf (sendBody s d).1 = writesOf s ++ [d] := by
  obtain ⟨h1, _⟩ := sendBody_connected s d h
  rw [h1]
  simp [writesOf, List.filterMap_append]

/-! ### Connect / disconnect -/

/-- Outcomes of the external calls made during one `connect()` run:
`serialOpenAsync` (rejects with an error or resolves), `initialNegotiate`,
`fetchPrinterInfo` (both from the abstract client, throwing or succeeding),
and the `info.connectResult` recorded by them on success. -/
structure ConnectEnv where
  openErr : Option CErr
  negotiateErr : Option CErr
  fetchErr : Option CErr
  negotiatedResult : Option ConnectResult
deriving DecidableEq, Repr

/-- All three external steps of `connect()` succeed. -/
def envOk (env : ConnectEnv) : Prop :=
  env.openErr = none ∧ env.negotiateErr = none ∧ env.fetchErr = none

instance (env : ConnectEnv) : Decidable (envOk env) := by
  unfold envOk
  infer_instance

/-- The device name built by `connect()`. -/
def serialLabel (port : String) : String :=
  "Serial (" ++ port ++ ")"

/-- The state right after `serialOpenAsync` resolves and the handlers are
installed: a fresh open handle is created, `this.device` points at it and
`this.isOpen = true`.  This is the state the negotiation handshake and the
info fetch run against. -/
def connectOpened (s : ClientState) : ClientState :=
  { s with handles := s.handles ++ [true]
           device := some s.handles.length
           isOpen := true }

/-- `connect()`: disconnect any prior session, check the port name
(JS truthiness: `undefined` and `""` both fail), open the port, negotiate
and fetch info (tearing down and rethrowing on failure), then emit the
connect event and return the `ConnectionInfo`. -/
def connect (s : ClientState) (env : ConnectEnv) :
    ClientState × Except CErr ConnectionInfo :=
  let s1 := disconnect s
  match s1.portName with
  | none => (s1, .error .portNotSet)
  | some port =>
    if port = "" then (s1, .error .portNotSet)
    else
      match env.openErr with
      | some e => (s1, .error e)
      | none =>
        let s2 := connectOpened s1
        match env.negotiateErr with
        | some e => (disconnect { s2 with isOpen := false }, .error e)
        | none =>
          match env.fetchErr with
          | some e => (disconnect { s2 with isOpen := false }, .error e)
          | none =>
            let s3 := { s2 with info := ⟨env.negotiatedResult⟩ }
            let ci : ConnectionInfo :=
              ⟨serialLabel port, env.negotiatedResult.getD .firmwareErrors⟩
            ({ s3 with events := s3.events ++ [.connectEv ci] }, .ok ci)

/-- `connect()` twice in succession, keeping the final state. -/
def connectTwice (s : ClientState) (e1 e2 : ConnectEnv) : ClientState :=
  (connect (connect s e1).1 e2).1

/-! ### Reachability invariant -/

/-- Every open entry of `handles` is the current device. -/
def handlesOnlyDevice (s : ClientState) : Prop :=
  ∀ i, i < s.handles.length → s.handles.getD i false = true → s.device = some i

instance (s : ClientState) : Decidable (handlesOnlyDevice s) := by
  unfold handlesOnlyDevice
  infer_instance

/-- Invariant of reachable client states: at most one live handle, the
`isOpen` flag implies the device handle is open, and any open handle is the
device. -/
def wellFormed (s : ClientState) : Prop :=
  liveHandles s ≤ 1 ∧ (s.isOpen = true → deviceOpen s = true) ∧ handlesOnlyDevice s

instance (s : ClientState) : Decidable (wellFormed s) := by
  unfold wellFormed
  infer_instance

/-- The state of a freshly constructed client (no port, no device, default
packet interval of the abstract client). -/
def initialState : ClientState :=
  { portName := none
    handles := []
    device := none
    isOpen := false
    heartbeat := false
    packetIntervalMs := 10
    info := ⟨none⟩
    events := []
    actions := [] }

/-! ### Basic lemmas about closeDevice / disconnect -/

theorem closeDevice_spec (s : ClientState) :
    (deviceOpen s = false ∧ closeDevice s = s) ∨
    (∃ i, s.device = some i ∧ s.handles.getD i false = true ∧
      closeDevice s =
        { s with handles := s.handles.set i false
                 isOpen := false
                 events := s.events ++ [.disconnectEv] }) := by
  cases hd : s.device with
  | none =>
    left
    refine ⟨?_, ?_⟩
    · unfold deviceOpen
      rw [hd]
    · unfold closeDevice
      rw [hd]
  | some i =>
    cases hg : s.handles.getD i false with
    | false =>
      left
      refine ⟨?_, ?_⟩
      · unfold deviceOpen
        rw [hd]
        exact hg
      · unfold closeDevice
        rw [hd]
        simp only [hg]
        simp
    | true =>
      right
      refine ⟨i, rfl, ?_, ?_⟩
      · first
        | rfl
        | exact hg
      · unfold closeDevice
        rw [hd]
        simp only [hg]
        simp

theorem disconnect_portName (s : ClientState) :
    (disconnect s).portName = s.portName := by
  unfold disconnect
  rcases closeDevice_spec { s with heartbeat := false } with ⟨_, h⟩ | ⟨i, _, _, h⟩ <;>
    rw [h]

theorem count_true_zero_of_getD :
    ∀ (l : List Bool), (∀ i, i < l.length → l.getD i false = false) →
      l.count true = 0
  | [], _ => rfl
  | a :: tl, h => by
      have h0 := h 0 (by simp)
      simp [List.getD] at h0
      subst h0
      have htl : tl.count true = 0 :=
        count_true_zero_of_getD tl (fun i hi => by
          simpa [List.getD] using h (i + 1) (by simpa using Nat.succ_lt_succ hi))
      simp [List.count_cons, htl]

theorem wellFormed_heartbeat (s : ClientState) (hwf : wellFormed s) :
    wellFormed { s with heartbeat := false } := by
  unfold wellFormed liveHandles deviceOpen handlesOnlyDevice at *
  simpa using hwf

theorem liveHandles_closeDevice_zero (s : ClientState) (hwf : wellFormed s) :
    liveHandles (closeDevice s) = 0 ∧ isConnected (closeDevice s) = false ∧
      deviceOpen (closeDevice s) = false := by
  obtain ⟨hle, hio, hod⟩ := hwf
  rcases closeDevice_spec s with ⟨hcl, heq⟩ | ⟨i, hd, hg, heq⟩
  · rw [heq]
    have hzero : liveHandles s = 0 := by
      apply count_true_zero_of_getD
      intro j hj
      by_contra hc
      have hj' : s.handles.getD j false = true := by
        cases hgj : s.handles.getD j false with
        | true => rfl
        | false => exact absurd hgj hc
      have hdj := hod j hj hj'
      have hdo : deviceOpen s = true := by
        unfold deviceOpen
        rw [hdj]
        exact hj'
      rw [hdo] at hcl
      exact Bool.noConfusion hcl
    have hopen : s.isOpen = false := by
      cases hos : s.isOpen with
      | false => rfl
      | true => rw [hio hos] at hcl; exact Bool.noConfusion hcl
    exact ⟨hzero, by simpa [isConnected] using hopen, hcl⟩
  · rw [heq]
    have hcnt := count_true_set_false s.handles i hg
    have hpos := count_true_pos s.handles i hg
    refine ⟨?_, rfl, ?_⟩
    · unfold liveHandles at *
      simp only
      omega
    · unfold deviceOpen
      simp only [hd]
      exact getD_set_self_false s.handles i

theorem disconnect_teardown (s : ClientState) (hwf : wellFormed s) :
    liveHandles (disconnect s) = 0 ∧ isConnected (disconnect s) = false ∧
      deviceOpen (disconnect s) = false := by
  unfold disconnect
  exact liveHandles_closeDevice_zero _ (wellFormed_heartbeat s hwf)

theorem wellFormed_of_no_live (s : ClientState) (h0 : liveHandles s = 0)
    (hopen : s.isOpen = false) : wellFormed s := by
  refine ⟨by simp [h0], ?_, ?_⟩
  · intro h
    rw [hopen] at h
    exact absurd h (by simp)
  · intro i hi hg
    have := count_true_zero_getD s.handles h0 i
    rw [hg] at this
    exact absurd this (by simp)

theorem wellFormed_disconnect (s : ClientState) (hwf : wellFormed s) :
    wellFormed (disconnect s) := by
  obtain ⟨h0, hic, _⟩ := disconnect_teardown s hwf
  exact wellFormed_of_no_live _ h0 (by simpa [isConnected] using hic)

/-! ### Characterizing connect runs -/

theorem wellFormed_fresh (s' : ClientState) (l : List Bool) (h0 : l.count true = 0)
    (hh : s'.handles = l ++ [true]) (hd : s'.device = some l.length) :
    wellFormed s' ∧ liveHandles s' = 1 ∧ deviceOpen s' = true := by
  have hdo : deviceOpen s' = true := by
    unfold deviceOpen
    rw [hd, hh]
    exact getD_append_length l true false
  have hcnt : liveHandles s' = 1 := by
    unfold liveHandles
    rw [hh, List.count_append]
    simp [h0]
  refine ⟨⟨by omega, fun _ => hdo, ?_⟩, hcnt, hdo⟩
  intro i hi hg
  rw [hh] at hi hg
  simp only [List.length_append, List.length_singleton] at hi
  rcases Nat.lt_or_ge i l.length with hlt | hge
  · rw [List.getD_append l [true] false i hlt] at hg
    have := count_true_zero_getD l h0 i
    rw [hg] at this
    exact absurd this (by simp)
  · have : i = l.length := by omega
    subst this
    rw [hd]

theorem connect_success_eq (s : ClientState) (env : ConnectEnv) (port : String)
    (hp : s.portName = some port) (hne : port ≠ "") (hok : envOk env) :
    connect s env =
      ({ connectOpened (disconnect s) with
           info := ⟨env.negotiatedResult⟩
           events := (disconnect s).events ++
             [.connectEv ⟨serialLabel port, env.negotiatedResult.getD .firmwareErrors⟩] },
       .ok ⟨serialLabel port, env.negotiatedResult.getD .firmwareErrors⟩) := by
  obtain ⟨h1, h2, h3⟩ := hok
  unfold connect
  simp only [disconnect_portName, hp, h1, h2, h3]
  simp [hne, connectOpened]

theorem connect_success_props (s : ClientState) (env : ConnectEnv) (port : String)
    (hwf : wellFormed s) (hp : s.portName = some port) (hne : port ≠ "")
    (hok : envOk env) :
    wellFormed (connect s env).1 ∧
    liveHandles (connect s env).1 = 1 ∧
    deviceOpen (connect s env).1 = true ∧
    isConnected (connect s env).1 = true ∧
    (connect s env).1.portName = some port ∧
    (connect s env).1.device = some ((connect s env).1.handles.length - 1) := by
  have h0 := (disconnect_teardown s hwf).1
  rw [connect_success_eq s env port hp hne hok]
  obtain ⟨hwf', hlive, hdo⟩ :=
    wellFormed_fresh
      ({ connectOpened (disconnect s) with
           info := ⟨env.negotiatedResult⟩
           events := (disconnect s).events ++
             [.connectEv ⟨serialLabel port, env.negotiatedResult.getD .firmwareErrors⟩] })
      (disconnect s).handles h0 (by simp [connectOpened]) (by simp [connectOpened])
  refine ⟨hwf', hlive, hdo, rfl, ?_, ?_⟩
  · simpa [connectOpened] using (disconnect_portName s).trans hp
  · simp [connectOpened]

theorem connect_fail_eq (s : ClientState) (env : ConnectEnv) (port : String) (e : CErr)
    (hp : s.portName = some port) (hne : port ≠ "") (hopen : env.openErr = none)
    (hfail : env.negotiateErr = some e ∨
      (env.negotiateErr = none ∧ env.fetchErr = some e)) :
    connect s env =
      (disconnect { connectOpened (disconnect s) with isOpen := false },
       .error e) := by
  unfold connect
  rcases hfail with h | ⟨hn, hf⟩
  · simp only [disconnect_portName, hp, hopen, h]
    simp [hne]
  · simp only [disconnect_portName, hp, hopen, hn, hf]
    simp [hne]

theorem connect_fail_props (s : ClientState) (env : ConnectEnv) (port : String)
    (e : CErr) (hwf : wellFormed s) (hp : s.portName = some port) (hne : port ≠ "")
    (hopen : env.openErr = none)
    (hfail : env.negotiateErr = some e ∨
      (env.negotiateErr = none ∧ env.fetchErr = some e)) :
    (connect s env).2 = .error e ∧
    isConnected (connect s env).1 = false ∧
    liveHandles (connect s env).1 = 0 ∧
    deviceOpen (connect s env).1 = false := by
  have h0 := (disconnect_teardown s hwf).1
  rw [connect_fail_eq s env port e hp hne hopen hfail]
  obtain ⟨hwfX, _, _⟩ :=
    wellFormed_fresh ({ connectOpened (disconnect s) with isOpen := false })
      (disconnect s).handles h0 (by simp [connectOpened]) (by simp [connectOpened])
  obtain ⟨ha, hb, hc⟩ := disconnect_teardown _ hwfX
  exact ⟨rfl, hb, ha, hc⟩

theorem closeDevice_events_once (s : ClientState) (h : deviceOpen s = true) :
    (closeDevice s).events = s.events ++ [Ev.disconnectEv] := by
  rcases closeDevice_spec s with ⟨hcl, _⟩ | ⟨i, _, _, heq⟩
  · rw [h] at hcl
    exact absurd hcl (by simp)
  · rw [heq]

theorem closeDevice_idem (s : ClientState) :
    closeDevice (closeDevice s) = closeDevice s := by
  rcases closeDevice_spec s with ⟨_, heq⟩ | ⟨i, hd, hg, heq⟩
  · rw [heq]
    exact heq
  · have h2 : (closeDevice s).device = some i := by
      rw [heq]
      exact hd
    have h3 : (closeDevice s).handles.getD i false = false := by
      rw [heq]
      exact getD_set_self_false s.handles i
    rcases closeDevice_spec (closeDevice s) with ⟨_, heq2⟩ | ⟨j, hd2, hg2, _⟩
    · exact heq2
    · rw [h2] at hd2
      have hij : i = j := Option.some.inj hd2
      subst hij
      rw [hg2] at h3
      exact absurd h3 (by simp)

/-- A concrete reachable connected session: port set to `"COM7"`, one
successful `connect()` run. -/
def connectedState : ClientState :=
  (connect (setPort initialState "COM7") ⟨none, none, none, some (.code 0)⟩).1

/-- claim C1: gated `sendRaw` calls (force unset) are handed to the FIFO
mutex in issue order; running the queue performs, one exclusive task at a
time, exactly one interval sleep followed by one transport write per call,
so the transport observes the writes in exactly the call order, all tasks
succeeding while the session stays connected. -/
theorem gated_sends_fifo (s : ClientState) (ds : List Chunk)
    (h : isConnected s = true) :
    (gateRunAll s ds).1.actions =
      s.actions ++
        ds.flatMap (fun d => [Action.sleep s.packetIntervalMs, Action.write d]) ∧
    writesOf (gateRunAll s ds).1 = writesOf s ++ ds ∧
    (gateRunAll s ds).2 = ds.map (fun _ => Except.ok ()) := by
  induction ds generalizing s with
  | nil => simp [gateRunAll]
  | cons d rest ih =>
    have hpi := (sendBody_fields s d).2
    have hconn : isConnected (sendBody s d).1 = true := by
      unfold isConnected at *
      rw [(sendBody_fields s d).1]
      exact h
    obtain ⟨ih1, ih2, ih3⟩ := ih (sendBody s d).1 hconn
    obtain ⟨hs1, hs2⟩ := sendBody_connected s d h
    refine ⟨?_, ?_, ?_⟩
    · show (gateRunAll (sendBody s d).1 rest).1.actions = _
      rw [ih1]
      simp only [hpi]
      rw [hs1]
      simp [List.append_assoc]
    · show writesOf (gateRunAll (sendBody s d).1 rest).1 = _
      rw [ih2, writesOf_append_send s d h]
      simp
    · show (sendBody s d).2 :: (gateRunAll (sendBody s d).1 rest).2 = _
      rw [ih3, hs2]
      simp

theorem gated_sends_fifo_witness :
    isConnected connectedState = true ∧
    ((gateRunAll connectedState [[1], [2], [3]]).1.actions =
      connectedState.actions ++
        [Action.sleep 10, Action.write [1], Action.sleep 10, Action.write [2],
         Action.sleep 10, Action.write [3]] ∧
     writesOf (gateRunAll connectedState [[1], [2], [3]]).1 =
       writesOf connectedState ++ [[1], [2], [3]] ∧
     (gateRunAll connectedState [[1], [2], [3]]).2 =
       [Except.ok (), Except.ok (), Except.ok ()]) :=
  ⟨by decide, gated_sends_fifo connectedState [[1], [2], [3]] (by decide)⟩

/-- claim C2: a `sendRaw` issued while `isConnected()` is false — on either
path, `force` set or unset — fails with the `"Not connected"` error, leaves
the state untouched and performs no transport write. -/
theorem send_not_connected_fails (s : ClientState) (g : Gate) (d : Chunk)
    (h : isConnected s = false) :
    sendRawForce s d = (s, .error .notConnected) ∧
    (gatedSend s g d).final = (s, .error .notConnected) ∧
    writesOf (sendRawForce s d).1 = writesOf s ∧
    (sendRawForce s d).1.actions = s.actions := by
  unfold sendRawForce gatedSend sendBody
  rw [h]
  simp

theorem send_not_connected_fails_witness :
    isConnected initialState = false ∧
    (sendRawForce initialState [1] = (initialState, .error .notConnected) ∧
     (gatedSend initialState ⟨[]⟩ [1]).final =
       (initialState, .error .notConnected) ∧
     writesOf (sendRawForce initialState [1]).1 = writesOf initialState ∧
     (sendRawForce initialState [1]).1.actions = initialState.actions) :=
  ⟨by decide, send_not_connected_fails initialState ⟨[]⟩ [1] (by decide)⟩

/-- claim C3 counterexample: a gated `sendRaw` on a disconnected session
fails with `NotConnected`, yet its task does occupy the gate's queue — the
gate observed right after the call holds the task, so the gate state is not
unchanged: the connectivity check runs inside the exclusive task, after the
gate is acquired, not before. -/
theorem failing_send_occupies_gate_cex :
    (gatedSend initialState ⟨[]⟩ [1]).final.2 =
      Except.error CErr.notConnected ∧
    (gatedSend initialState ⟨[]⟩ [1]).queuedGate = Gate.mk [[1]] ∧
    Gate.mk [[1]] ≠ Gate.mk [] :=
  ⟨rfl, rfl, by decide⟩

/-- claim C3 amended: in the gated path the not-connected check runs inside
the exclusive task, i.e. after the task has been enqueued on the gate; a
send that fails with `NotConnected` therefore does occupy the gate's queue
until it runs, but it performs no transport write and leaves the client
state unchanged (the gate is released afterwards). -/
theorem gated_send_checks_after_enqueue (s : ClientState) (g : Gate) (d : Chunk)
    (h : isConnected s = false) :
    (gatedSend s g d).queuedGate = gateEnqueue g d ∧
    (gatedSend s g d).final = (s, .error .notConnected) ∧
    writesOf (gatedSend s g d).final.1 = writesOf s := by
  unfold gatedSend sendBody
  rw [h]
  simp

theorem gated_send_checks_after_enqueue_witness :
    isConnected initialState = false ∧
    ((gatedSend initialState ⟨[]⟩ [2]).queuedGate = gateEnqueue ⟨[]⟩ [2] ∧
     (gatedSend initialState ⟨[]⟩ [2]).final =
       (initialState, .error .notConnected) ∧
     writesOf (gatedSend initialState ⟨[]⟩ [2]).final.1 =
       writesOf initialState) :=
  ⟨by decide, gated_send_checks_after_enqueue initialState ⟨[]⟩ [2] (by decide)⟩

/-- claim C4 counterexample: on a connected session with
`packetIntervalMs = 10`, `sendRaw` with `force` set still performs
`Utils.sleep(packetIntervalMs)` before the write — the action trace is
`[sleep 10, write d]`, not an immediate `[write d]` — so the force path does
not skip the minimum inter-write interval. -/
theorem force_send_waits_interval_cex :
    isConnected connectedState = true ∧
    connectedState.packetIntervalMs = 10 ∧
    (sendRawForce connectedState [7]).1.actions =
      connectedState.actions ++ [Action.sleep 10, Action.write [7]] ∧
    ¬ (sendRawForce connectedState [7]).1.actions =
        connectedState.actions ++ [Action.write [7]] := by
  refine ⟨by decide, by decide, by decide, by decide⟩

/-- claim C4 amended: `sendRaw` with `force` set skips only the exclusive
gate — the `send` closure runs directly, without being enqueued on the
mutex — but it still waits the configured packet interval: the transport
write is preceded by a sleep of `packetIntervalMs`. -/
theorem force_send_skips_gate_not_interval (s : ClientState) (d : Chunk)
    (h : isConnected s = true) :
    (sendRawForce s d).1.actions =
      s.actions ++ [.sleep s.packetIntervalMs, .write d] ∧
    (sendRawForce s d).2 = .ok () ∧
    (sendRawForce s d).1.events = s.events ++ [.rawPacketSent d] ∧
    writesOf (sendRawForce s d).1 = writesOf s ++ [d] := by
  obtain ⟨h1, h2⟩ := sendBody_connected s d h
  refine ⟨?_, h2, ?_, writesOf_append_send s d h⟩
  · show (sendBody s d).1.actions = _
    rw [h1]
  · show (sendBody s d).1.events = _
    rw [h1]

theorem force_send_skips_gate_not_interval_witness :
    isConnected connectedState = true ∧
    ((sendRawForce connectedState [9]).1.actions =
      connectedState.actions ++ [.sleep connectedState.packetIntervalMs, .write [9]] ∧
     (sendRawForce connectedState [9]).2 = .ok () ∧
     (sendRawForce connectedState [9]).1.events =
       connectedState.events ++ [.rawPacketSent [9]] ∧
     writesOf (sendRawForce connectedState [9]).1 =
       writesOf connectedState ++ [[9]]) :=
  ⟨by decide, force_send_skips_gate_not_interval connectedState [9] (by decide)⟩

/-- claim C9: one invocation of the `dataReady` drain forwards exactly the
non-null chunks read before the first `null` or error, in arrival order
(the longest prefix of chunk outcomes), stops at `null`, terminates silently
on an error (no error value escapes, the loop just breaks), and leaves the
session state — in particular its connection state — unchanged. -/
theorem dataReady_drains_in_order (s : ClientState) (outs : List ReadOutcome) :
    (dataReady s outs).1 = s ∧
    (dataReady s outs).2 = (outs.takeWhile isChunk).map chunkOf ∧
    isConnected (dataReady s outs).1 = isConnected s := by
  refine ⟨rfl, ?_, rfl⟩
  exact drainChunks_eq_takeWhile outs

/-- claim C5: if the negotiation handshake or the device-info fetch fails
during `connect()`, the original error is rethrown to the caller, the
session's transport handle ends up closed (no live handle remains at all),
and `isConnected()` is false — no partially-connected state is observable
after `connect()` returns. -/
theorem connect_failure_no_partial_state (s : ClientState) (env : ConnectEnv)
    (port : String) (e : CErr) (hwf : wellFormed s) (hp : s.portName = some port)
    (hne : port ≠ "") (hopen : env.openErr = none)
    (hfail : env.negotiateErr = some e ∨
      (env.negotiateErr = none ∧ env.fetchErr = some e)) :
    (connect s env).2 = .error e ∧
    isConnected (connect s env).1 = false ∧
    liveHandles (connect s env).1 = 0 ∧
    deviceOpen (connect s env).1 = false :=
  connect_fail_props s env port e hwf hp hne hopen hfail

theorem connect_failure_no_partial_state_witness :
    (wellFormed (setPort initialState "COM7") ∧ "COM7" ≠ "") ∧
    ((connect (setPort initialState "COM7")
        ⟨none, some (.external 3), none, none⟩).2 = .error (.external 3) ∧
     isConnected (connect (setPort initialState "COM7")
        ⟨none, some (.external 3), none, none⟩).1 = false ∧
     liveHandles (connect (setPort initialState "COM7")
        ⟨none, some (.external 3), none, none⟩).1 = 0 ∧
     deviceOpen (connect (setPort initialState "COM7")
        ⟨none, some (.external 3), none, none⟩).1 = false) :=
  ⟨⟨by decide, by decide⟩,
    connect_failure_no_partial_state (setPort initialState "COM7")
      ⟨none, some (.external 3), none, none⟩ "COM7" (.external 3)
      (by decide) rfl (by decide) rfl (Or.inl rfl)⟩

/-- claim C6 counterexample: the session state against which the handshake
and info fetch run — the state of `connect()` right after the port opened,
i.e. the Opening/Negotiating phase — already has `isConnected() = true`:
the code sets `isOpen = true` before `initialNegotiate`/`fetchPrinterInfo`,
so `isConnected()` is not true only in the Connected state. -/
theorem isConnected_during_negotiation_cex :
    isConnected (connectOpened (disconnect (setPort initialState "COM7"))) = true ∧
    ¬ isConnected (connectOpened (disconnect (setPort initialState "COM7"))) = false :=
  ⟨by decide, by decide⟩

/-- claim C6 amended: `isConnected()` returns exactly the transport-open
flag: it is already true from the moment the transport opens — in
particular during the handshake and info-fetch phases of `connect()` — and
false again only once the session is disconnected. -/
theorem isConnected_eq_transport_open (s : ClientState) (hwf : wellFormed s) :
    isConnected s = s.isOpen ∧
    isConnected (connectOpened s) = true ∧
    isConnected (disconnect s) = false :=
  ⟨rfl, rfl, (disconnect_teardown s hwf).2.1⟩

theorem isConnected_eq_transport_open_witness :
    wellFormed (setPort initialState "COM7") ∧
    (isConnected (setPort initialState "COM7") =
       (setPort initialState "COM7").isOpen ∧
     isConnected (connectOpened (setPort initialState "COM7")) = true ∧
     isConnected (disconnect (setPort initialState "COM7")) = false) :=
  ⟨by decide, isConnected_eq_transport_open (setPort initialState "COM7") (by decide)⟩

/-- claim C7: after a successful `connect()` the session reports connected;
after a `disconnect()` call, and likewise after a transport-initiated close,
it reports disconnected; and each close of an open transport emits the
disconnect lifecycle event exactly once — a first close appends exactly one
disconnect event and a second close of the already-closed handle is a
no-op. -/
theorem lifecycle_events (s : ClientState) (env : ConnectEnv) (port : String)
    (hwf : wellFormed s) (hp : s.portName = some port) (hne : port ≠ "")
    (hok : envOk env) :
    isConnected (connect s env).1 = true ∧
    isConnected (disconnect s) = false ∧
    isConnected (closeDevice s) = false ∧
    (deviceOpen s = true →
      (closeDevice s).events = s.events ++ [Ev.disconnectEv]) ∧
    closeDevice (closeDevice s) = closeDevice s := by
  refine ⟨(connect_success_props s env port hwf hp hne hok).2.2.2.1,
    (disconnect_teardown s hwf).2.1,
    (liveHandles_closeDevice_zero s hwf).2.1,
    closeDevice_events_once s,
    closeDevice_idem s⟩

theorem lifecycle_events_witness :
    (wellFormed connectedState ∧ connectedState.portName = some "COM7" ∧
      envOk ⟨none, none, none, none⟩) ∧
    (isConnected (connect connectedState ⟨none, none, none, none⟩).1 = true ∧
     isConnected (disconnect connectedState) = false ∧
     isConnected (closeDevice connectedState) = false ∧
     (deviceOpen connectedState = true →
       (closeDevice connectedState).events =
         connectedState.events ++ [Ev.disconnectEv]) ∧
     closeDevice (closeDevice connectedState) = closeDevice connectedState) :=
  ⟨⟨by decide, by decide, by decide⟩,
    lifecycle_events connectedState ⟨none, none, none, none⟩ "COM7"
      (by decide) (by decide) (by decide) (by decide)⟩

/-- claim C8: two `connect()` calls in succession leave exactly one live
transport handle — the open handle is the one freshly created by the second
call — and the first call's handle is fully closed (no live handle exists)
at the disconnect step with which the second `connect()` begins, before the
second handle is opened. -/
theorem connect_twice_one_live_handle (s : ClientState) (e1 e2 : ConnectEnv)
    (port : String) (hwf : wellFormed s) (hp : s.portName = some port)
    (hne : port ≠ "") (h1 : envOk e1) (h2 : envOk e2) :
    liveHandles (connectTwice s e1 e2) = 1 ∧
    deviceOpen (connectTwice s e1 e2) = true ∧
    (connectTwice s e1 e2).device =
      some ((connectTwice s e1 e2).handles.length - 1) ∧
    liveHandles (disconnect (connect s e1).1) = 0 := by
  obtain ⟨hwf1, _, _, _, hp1, _⟩ := connect_success_props s e1 port hwf hp hne h1
  obtain ⟨_, hl2, hdo2, _, _, hdev2⟩ :=
    connect_success_props (connect s e1).1 e2 port hwf1 hp1 hne h2
  exact ⟨hl2, hdo2, hdev2, (disconnect_teardown _ hwf1).1⟩

theorem connect_twice_one_live_handle_witness :
    (wellFormed (setPort initialState "COM7") ∧
      envOk ⟨none, none, none, none⟩) ∧
    (liveHandles (connectTwice (setPort initialState "COM7")
        ⟨none, none, none, none⟩ ⟨none, none, none, none⟩) = 1 ∧
     deviceOpen (connectTwice (setPort initialState "COM7")
        ⟨none, none, none, none⟩ ⟨none, none, none, none⟩) = true ∧
     (connectTwice (setPort initialState "COM7")
        ⟨none, none, none, none⟩ ⟨none, none, none, none⟩).device =
       some ((connectTwice (setPort initialState "COM7")
        ⟨none, none, none, none⟩ ⟨none, none, none, none⟩).handles.length - 1) ∧
     liveHandles (disconnect
       (connect (setPort initialState "COM7") ⟨none, none, none, none⟩).1) = 0) :=
  ⟨⟨by decide, by decide⟩,
    connect_twice_one_live_handle (setPort initialState "COM7")
      ⟨none, none, none, none⟩ ⟨none, none, none, none⟩ "COM7"
      (by decide) rfl (by decide) (by decide) (by decide)⟩

/-- claim C10: a successful `connect()` returns — and emits in its connect
event — a `ConnectionInfo` whose device name is the string
`Serial (<portName>)` and whose result is the recorded
`info.connectResult`, falling back to `ConnectResult.FirmwareErrors` when
the negotiation recorded none. -/
theorem connect_event_payload (s : ClientState) (env : ConnectEnv)
    (port : String) (hp : s.portName = some port) (hne : port ≠ "")
    (hok : envOk env) :
    (connect s env).2 =
      .ok ⟨serialLabel port, env.negotiatedResult.getD .firmwareErrors⟩ ∧
    (connect s env).1.events.getLast? =
      some (.connectEv ⟨serialLabel port,
        env.negotiatedResult.getD .firmwareErrors⟩) ∧
    (env.negotiatedResult = none →
      (connect s env).2 = .ok ⟨serialLabel port, .firmwareErrors⟩) := by
  rw [connect_success_eq s env port hp hne hok]
  refine ⟨rfl, ?_, ?_⟩
  · simp
  · intro h
    simp [h]

theorem connect_event_payload_witness :
    ((setPort initialState "COM7").portName = some "COM7" ∧
      envOk ⟨none, none, none, none⟩) ∧
    ((connect (setPort initialState "COM7") ⟨none, none, none, none⟩).2 =
       .ok ⟨"Serial (COM7)", .firmwareErrors⟩ ∧
     (connect (setPort initialState "COM7")
        ⟨none, none, none, none⟩).1.events.getLast? =
       some (.connectEv ⟨"Serial (COM7)", .firmwareErrors⟩) ∧
     ((⟨none, none, none, none⟩ : ConnectEnv).negotiatedResult = none →
       (connect (setPort initialState "COM7") ⟨none, none, none, none⟩).2 =
         .ok ⟨"Serial (COM7)", .firmwareErrors⟩)) :=
  ⟨⟨by decide, by decide⟩,
    connect_event_payload (setPort initialState "COM7")
      ⟨none, none, none, none⟩ "COM7" rfl (by decide) (by decide)⟩

end NiimblueNode
